import Mathlib

/-!
Shallow embedding of the Application resource adapter of a Terraform
provider for the Zabbix monitoring API, together with the provider
configuration step.

The Go source is a thin adapter layer: each handler receives a mutable
`ResourceData` record and an external API client, makes at most a couple
of client calls, and copies results back into the record.  The embedding
makes this explicit:

* `ResourceData` carries the tracked identity (`id`, written by `SetId`)
  and the two schema fields of the application resource (`name`,
  `hostid`, written by `Set`).  A handler returns the final record
  instead of mutating it in place.
* `API` is the record of the three client methods the application
  handlers use.  Each is an arbitrary function into `Except String _`,
  standing for the external library: a `.error e` result is the client
  returning a non-nil Go error `e`.  `applicationsCreate` returns the
  mutated input slice (the Go client fills `ApplicationID` in place).
* Every handler also returns the chronological list of client calls it
  made (`ClientCall`), so that "makes exactly one call" and "never calls
  the client" are statable.
* `Params` mirrors the two shapes of `zabbix.Params` the handlers build:
  a `filter` map (association list in lookup order) and an
  `applicationids` query.
-/

/-- Mirror of `zabbix.Application`: the three fields the provider uses.
Field defaults are the Go zero values. -/
structure Application where
  hostID : String := ""
  name : String := ""
  applicationID : String := ""
deriving Repr, DecidableEq

/-- The slice of `schema.ResourceData` the application handlers touch:
the tracked identity (`d.Id()` / `d.SetId`) and the two schema fields
(`d.Get` / `d.Set` of `name` and `hostid`). -/
structure ResourceData where
  id : String := ""
  name : String := ""
  hostid : String := ""
deriving Repr, DecidableEq

/-- The two shapes of `zabbix.Params` built by the application handlers:
`dataApplicationRead` builds `params["filter"]`, `resourceApplicationRead`
builds `params["applicationids"]`. -/
inductive Params where
  | filter (kvs : List (String × String))
  | applicationids (id : String)
deriving Repr, DecidableEq

/-- One outbound call to the external client, with its argument. -/
inductive ClientCall where
  | applicationsCreate (items : List Application)
  | applicationsGet (params : Params)
  | applicationsDeleteByIds (ids : List String)
deriving Repr, DecidableEq

/-- The external `zabbix.API` client, restricted to the three methods the
application handlers call.  Arbitrary functions: the theorems quantify
over every client behaviour. -/
structure API where
  applicationsCreate : List Application → Except String (List Application)
  applicationsGet : Params → Except String (List Application)
  applicationsDeleteByIds : List String → Except String Unit

/-- Outcome of running one handler: the final `ResourceData`, the error
the handler returned (`none` for a nil Go error), and the client calls
it made, in order. -/
structure RunResult where
  state : ResourceData
  error : Option String
  calls : List ClientCall
deriving Repr, DecidableEq

/-- `buildApplicationObject`: build a `zabbix.Application` from the
`hostid` and `name` fields.  The Go function returns `(&item, nil)`
unconditionally; `ApplicationID` keeps its zero value. -/
def buildApplicationObject (d : ResourceData) : Except String Application :=
  Except.ok { hostID := d.hostid, name := d.name }

/-- `applicationRead`: common read path.  Calls `ApplicationsGet` with
the given params; a client error is returned as is; zero matches clear
the id; more than one match is the local error
"multiple applications found"; exactly one match populates id, name and
hostid from the reply.  `apps.headD {}` stands for the Go `apps[0]`,
reached only when the two length guards ruled out every other length. -/
def applicationRead (api : API) (d : ResourceData) (params : Params) :
    RunResult :=
  match api.applicationsGet params with
  | Except.error e =>
      { state := d, error := some e, calls := [ClientCall.applicationsGet params] }
  | Except.ok apps =>
      if apps.length < 1 then
        { state := { d with id := "" }, error := none,
          calls := [ClientCall.applicationsGet params] }
      else if apps.length > 1 then
        { state := d, error := some "multiple applications found",
          calls := [ClientCall.applicationsGet params] }
      else
        { state := { d with id := (apps.headD {}).applicationID,
                            name := (apps.headD {}).name,
                            hostid := (apps.headD {}).hostID },
          error := none,
          calls := [ClientCall.applicationsGet params] }

/-- `resourceApplicationRead`: resource read handler; queries by the
tracked id. -/
def resourceApplicationRead (api : API) (d : ResourceData) : RunResult :=
  applicationRead api d (Params.applicationids d.id)

/-- The `GetOk` view of the data-source configuration: `some v` models
`d.GetOk(k)` returning `(v, true)` (the key is set to a non-zero value),
`none` models `(_, false)`. -/
structure DataQuery where
  applicationid : Option String := none
  hostid : Option String := none
  name : Option String := none
deriving Repr, DecidableEq

/-- `d.GetOk(k)` for the keys `dataApplicationRead` looks up. -/
def getOk (q : DataQuery) (k : String) : Option String :=
  if k = "applicationid" then q.applicationid
  else if k = "hostid" then q.hostid
  else if k = "name" then q.name
  else none

/-- The `lookups` slice of `dataApplicationRead`. -/
def lookups : List String := ["applicationid", "hostid", "name"]

/-- The `filter` map built by the loop of `dataApplicationRead`: for each
lookup key in order, the key maps to the configured value when `GetOk`
succeeds, and is absent otherwise. -/
def buildDataFilter (q : DataQuery) : List (String × String) :=
  lookups.filterMap fun k => (getOk q k).map fun v => (k, v)

/-- `dataApplicationRead`: data-source read handler; builds the filter
params from the configuration and delegates to `applicationRead`.
`q` is the `GetOk` view of the same `ResourceData` the handler writes. -/
def dataApplicationRead (api : API) (d : ResourceData) (q : DataQuery) :
    RunResult :=
  applicationRead api d (Params.filter (buildDataFilter q))

/-- `resourceApplicationCreate`: build the object, send it with
`ApplicationsCreate`, set the id to the `ApplicationID` the client wrote
into the slice (`items[0].ApplicationID`, here `(created.headD {})`),
then run the resource read. -/
def resourceApplicationCreate (api : API) (d : ResourceData) : RunResult :=
  match buildApplicationObject d with
  | Except.error e => { state := d, error := some e, calls := [] }
  | Except.ok item =>
      match api.applicationsCreate [item] with
      | Except.error e =>
          { state := d, error := some e,
            calls := [ClientCall.applicationsCreate [item]] }
      | Except.ok created =>
          let r := resourceApplicationRead api
            { d with id := (created.headD {}).applicationID }
          { r with calls := ClientCall.applicationsCreate [item] :: r.calls }

/-- `resourceApplicationUpdate`: the handler body is a single
`return errors.New("Unimplemented error")`; everything else is
commented out in the source. -/
def resourceApplicationUpdate (api : API) (d : ResourceData) : RunResult :=
  { state := d, error := some "Unimplemented error", calls := [] }

/-- `resourceApplicationDelete`: one `ApplicationsDeleteByIds` call on
the singleton of the tracked id, its result returned as is. -/
def resourceApplicationDelete (api : API) (d : ResourceData) : RunResult :=
  match api.applicationsDeleteByIds [d.id] with
  | Except.error e =>
      { state := d, error := some e,
        calls := [ClientCall.applicationsDeleteByIds [d.id]] }
  | Except.ok _ =>
      { state := d, error := none,
        calls := [ClientCall.applicationsDeleteByIds [d.id]] }

/-- The provider-level settings `providerConfigure` reads from the
declarative configuration. -/
structure ProviderData where
  username : String := ""
  password : String := ""
  url : String := ""
  tls_insecure : Bool := false
  serialize : Bool := false
deriving Repr, DecidableEq

/-- Mirror of `zabbix.Config` as filled in by `providerConfigure` (the
logger field carries no data relevant here and is omitted). -/
structure ZabbixConfig where
  url : String := ""
  tlsNoVerify : Bool := false
  serialize : Bool := false
deriving Repr, DecidableEq

/-- `providerConfigure`, restricted to the `zabbix.Config` literal it
passes to `zabbix.NewAPI`: each field is the raw `d.Get` value. -/
def providerConfigure (d : ProviderData) : ZabbixConfig :=
  { url := d.url, tlsNoVerify := d.tls_insecure, serialize := d.serialize }

/-! Concrete client behaviours, used to evaluate the handlers on closed
inputs. -/

/-- A client whose `ApplicationsGet` finds nothing. -/
def apiEmpty : API :=
  { applicationsCreate := fun items => Except.ok items
    applicationsGet := fun _ => Except.ok []
    applicationsDeleteByIds := fun _ => Except.ok () }

/-- A client whose `ApplicationsGet` finds two applications. -/
def apiMulti : API :=
  { applicationsCreate := fun items => Except.ok items
    applicationsGet := fun _ => Except.ok
      [{ hostID := "10", name := "web", applicationID := "41" },
       { hostID := "10", name := "web", applicationID := "42" }]
    applicationsDeleteByIds := fun _ => Except.ok () }

/-- A client that assigns id `"42"` on create and then finds exactly the
created application. -/
def apiOne : API :=
  { applicationsCreate := fun items =>
      Except.ok (items.map fun a => { a with applicationID := "42" })
    applicationsGet := fun _ => Except.ok
      [{ hostID := "10", name := "web", applicationID := "42" }]
    applicationsDeleteByIds := fun _ => Except.ok () }

/-- A client whose every method fails. -/
def apiErr : API :=
  { applicationsCreate := fun _ => Except.error "create failed"
    applicationsGet := fun _ => Except.error "get failed"
    applicationsDeleteByIds := fun _ => Except.error "delete failed" }

/-- A concrete tracked state. -/
def dX : ResourceData := { id := "123", name := "web", hostid := "10" }

/-- A concrete fresh (not yet created) state. -/
def dNew : ResourceData := { id := "", name := "web", hostid := "10" }

/-- The application `apiOne` reports as created. -/
def appOne : Application := { hostID := "10", name := "web", applicationID := "42" }

/-! Helper lemmas about the common read path. -/

/-- Every error `applicationRead` returns is either the client's
`ApplicationsGet` error verbatim or the local ambiguity error. -/
theorem applicationRead_error_aux (api : API) (d : ResourceData) (params : Params)
    (e : String) (h : (applicationRead api d params).error = some e) :
    api.applicationsGet params = Except.error e ∨ e = "multiple applications found" := by
  cases hg : api.applicationsGet params with
  | error e2 =>
      simp [applicationRead, hg] at h
      subst h
      exact Or.inl rfl
  | ok apps =>
      by_cases h1 : apps.length < 1
      · simp [applicationRead, hg, h1] at h
      · by_cases h2 : apps.length > 1
        · simp [applicationRead, hg, h1, h2] at h
          exact Or.inr h.symm
        · simp [applicationRead, hg, h1, h2] at h

/-- On every error outcome, `applicationRead` leaves the state untouched. -/
theorem applicationRead_state_aux (api : API) (d : ResourceData) (params : Params)
    (h : (applicationRead api d params).error ≠ none) :
    (applicationRead api d params).state = d := by
  cases hg : api.applicationsGet params with
  | error e2 => simp [applicationRead, hg]
  | ok apps =>
      by_cases h1 : apps.length < 1
      · simp [applicationRead, hg, h1] at h
      · by_cases h2 : apps.length > 1
        · simp [applicationRead, hg, h1, h2]
        · simp [applicationRead, hg, h1, h2] at h

/-! Claim theorems. -/

/-- C1: for every resource state and every API client, the Application
update operation returns the hardcoded error "Unimplemented error"
unconditionally, makes no client call and leaves the state unchanged. -/
theorem resourceApplicationUpdate_unimplemented (api : API) (d : ResourceData) :
    resourceApplicationUpdate api d =
      { state := d, error := some "Unimplemented error", calls := [] } := rfl

/-- C2: whenever the client's `ApplicationsGet` succeeds with zero
matches, the common read path clears the tracked id, leaves `name` and
`hostid` untouched, and returns no error; both the resource read and the
data-source read are instances of this path. -/
theorem applicationRead_zero_matches (api : API) (d : ResourceData)
    (params : Params) (q : DataQuery)
    (h : api.applicationsGet params = Except.ok []) :
    applicationRead api d params =
      { state := { d with id := "" }, error := none,
        calls := [ClientCall.applicationsGet params] }
    ∧ resourceApplicationRead api d = applicationRead api d (Params.applicationids d.id)
    ∧ dataApplicationRead api d q =
        applicationRead api d (Params.filter (buildDataFilter q)) := by
  refine ⟨?_, rfl, rfl⟩
  simp [applicationRead, h]

/-- Witness for C2 at a concrete client and state. -/
theorem applicationRead_zero_matches_witness :
    applicationRead apiEmpty dX (Params.applicationids "123") =
      { state := { dX with id := "" }, error := none,
        calls := [ClientCall.applicationsGet (Params.applicationids "123")] }
    ∧ resourceApplicationRead apiEmpty dX =
        applicationRead apiEmpty dX (Params.applicationids dX.id)
    ∧ dataApplicationRead apiEmpty dX {} =
        applicationRead apiEmpty dX (Params.filter (buildDataFilter {})) :=
  applicationRead_zero_matches apiEmpty dX (Params.applicationids "123") {} rfl

/-- C3: whenever the client's `ApplicationsGet` succeeds with more than
one match, the read returns the error "multiple applications found" and
modifies neither the id nor any field. -/
theorem applicationRead_multiple_matches (api : API) (d : ResourceData)
    (params : Params) (apps : List Application)
    (h : api.applicationsGet params = Except.ok apps)
    (h2 : apps.length > 1) :
    applicationRead api d params =
      { state := d, error := some "multiple applications found",
        calls := [ClientCall.applicationsGet params] } := by
  have h1 : ¬ apps.length < 1 := by omega
  simp [applicationRead, h, h1, h2]

/-- Witness for C3 at a concrete client returning two matches. -/
theorem applicationRead_multiple_matches_witness :
    applicationRead apiMulti dX (Params.applicationids "123") =
      { state := dX, error := some "multiple applications found",
        calls := [ClientCall.applicationsGet (Params.applicationids "123")] } :=
  applicationRead_multiple_matches apiMulti dX (Params.applicationids "123")
    [{ hostID := "10", name := "web", applicationID := "41" },
     { hostID := "10", name := "web", applicationID := "42" }]
    rfl (by decide)

/-- C4: a successful create sends exactly one `Application{HostID, Name}`
built from the configured fields, sets the id to the `ApplicationID` the
client assigned, and runs the read; when that read finds exactly one
application, id, name and hostid are populated from the client's reply. -/
theorem resourceApplicationCreate_roundtrip (api : API) (d : ResourceData)
    (created app : Application)
    (hc : api.applicationsCreate [{ hostID := d.hostid, name := d.name }] =
      Except.ok [created])
    (hg : api.applicationsGet (Params.applicationids created.applicationID) =
      Except.ok [app]) :
    resourceApplicationCreate api d =
      { state := { id := app.applicationID, name := app.name, hostid := app.hostID },
        error := none,
        calls := [ClientCall.applicationsCreate [{ hostID := d.hostid, name := d.name }],
                  ClientCall.applicationsGet (Params.applicationids created.applicationID)] } := by
  simp [resourceApplicationCreate, buildApplicationObject, hc,
    resourceApplicationRead, applicationRead, hg]

/-- Witness for C4 at a concrete client that assigns id "42". -/
theorem resourceApplicationCreate_roundtrip_witness :
    resourceApplicationCreate apiOne dNew =
      { state := { id := appOne.applicationID, name := appOne.name,
                   hostid := appOne.hostID },
        error := none,
        calls := [ClientCall.applicationsCreate
                    [{ hostID := dNew.hostid, name := dNew.name }],
                  ClientCall.applicationsGet
                    (Params.applicationids appOne.applicationID)] } :=
  resourceApplicationCreate_roundtrip apiOne dNew appOne appOne rfl rfl

/-- C9: `buildApplicationObject` returns a non-nil application and a nil
error on every input, so the error branch after it in
`resourceApplicationCreate` is unreachable: the create handler always
reaches the `ApplicationsCreate` call, whatever the client does. -/
theorem buildApplicationObject_total (d : ResourceData) :
    buildApplicationObject d =
      Except.ok { hostID := d.hostid, name := d.name, applicationID := "" }
    ∧ ∀ api : API, (resourceApplicationCreate api d).calls.head? =
        some (ClientCall.applicationsCreate
          [{ hostID := d.hostid, name := d.name }]) := by
  refine ⟨rfl, fun api => ?_⟩
  cases hc : api.applicationsCreate [{ hostID := d.hostid, name := d.name }] with
  | error e => simp [resourceApplicationCreate, buildApplicationObject, hc]
  | ok created => simp [resourceApplicationCreate, buildApplicationObject, hc]

/-- C5: every client error is surfaced verbatim, and the only locally
constructed errors across create, read, delete and update are
"multiple applications found" and "Unimplemented error". -/
theorem application_error_surface (api : API) (d : ResourceData)
    (params : Params) (e : String) :
    (api.applicationsGet params = Except.error e →
      (applicationRead api d params).error = some e)
    ∧ ((applicationRead api d params).error = some e →
        api.applicationsGet params = Except.error e
        ∨ e = "multiple applications found")
    ∧ ((resourceApplicationDelete api d).error = some e ↔
        api.applicationsDeleteByIds [d.id] = Except.error e)
    ∧ (api.applicationsCreate [{ hostID := d.hostid, name := d.name }] =
          Except.error e →
        (resourceApplicationCreate api d).error = some e)
    ∧ ((resourceApplicationCreate api d).error = some e →
        api.applicationsCreate [{ hostID := d.hostid, name := d.name }] =
          Except.error e
        ∨ (∃ created,
            api.applicationsCreate [{ hostID := d.hostid, name := d.name }] =
              Except.ok created
            ∧ api.applicationsGet
                (Params.applicationids (created.headD {}).applicationID) =
              Except.error e)
        ∨ e = "multiple applications found")
    ∧ (resourceApplicationUpdate api d).error = some "Unimplemented error" := by
  refine ⟨?_, applicationRead_error_aux api d params e, ?_, ?_, ?_, rfl⟩
  · intro h
    simp [applicationRead, h]
  · cases hd : api.applicationsDeleteByIds [d.id] with
    | error e2 => simp [resourceApplicationDelete, hd]
    | ok u => cases u; simp [resourceApplicationDelete, hd]
  · intro h
    simp [resourceApplicationCreate, buildApplicationObject, h]
  · intro h
    cases hc : api.applicationsCreate [{ hostID := d.hostid, name := d.name }] with
    | error e2 =>
        have he : (resourceApplicationCreate api d).error = some e2 := by
          simp [resourceApplicationCreate, buildApplicationObject, hc]
        rw [he] at h
        obtain rfl := Option.some.inj h
        exact Or.inl rfl
    | ok created =>
        have he : (resourceApplicationCreate api d).error =
            (applicationRead api
              { d with id := (created.headD {}).applicationID }
              (Params.applicationids (created.headD {}).applicationID)).error := by
          simp [resourceApplicationCreate, buildApplicationObject, hc,
            resourceApplicationRead]
        rw [he] at h
        rcases applicationRead_error_aux _ _ _ _ h with hg | hm
        · exact Or.inr (Or.inl ⟨created, rfl, hg⟩)
        · exact Or.inr (Or.inr hm)

/-- Witness for C5: a concrete failing client's read error is surfaced
verbatim (or would be the local ambiguity message). -/
theorem application_error_surface_witness :
    apiErr.applicationsGet (Params.applicationids "123") =
      Except.error "get failed"
    ∨ "get failed" = "multiple applications found" :=
  (application_error_surface apiErr dX (Params.applicationids "123")
    "get failed").2.1 rfl

/-- C6: `providerConfigure` copies the `serialize`, `url` and
`tls_insecure` settings into the client `Config` unmodified. -/
theorem providerConfigure_passthrough (d : ProviderData) :
    (providerConfigure d).serialize = d.serialize
    ∧ (providerConfigure d).url = d.url
    ∧ (providerConfigure d).tlsNoVerify = d.tls_insecure :=
  ⟨rfl, rfl, rfl⟩

/-- C7: the data-source lookup filter contains a binding `(k, v)` exactly
when `k` is one of the three lookup keys and the configuration sets `k`
to `v`; `dataApplicationRead` queries with precisely this filter. -/
theorem dataApplicationRead_filter_keys (api : API) (d : ResourceData)
    (q : DataQuery) (k v : String) :
    ((k, v) ∈ buildDataFilter q ↔ k ∈ lookups ∧ getOk q k = some v)
    ∧ dataApplicationRead api d q =
        applicationRead api d (Params.filter (buildDataFilter q)) := by
  refine ⟨?_, rfl⟩
  simp only [buildDataFilter, List.mem_filterMap, Option.map_eq_some',
    Prod.mk.injEq]
  constructor
  · rintro ⟨a, ha, v2, hv2, rfl, rfl⟩
    exact ⟨ha, hv2⟩
  · rintro ⟨hk, hv⟩
    exact ⟨k, hk, v, hv, rfl, rfl⟩

/-- C8: delete makes exactly one client call, `ApplicationsDeleteByIds`
on the singleton of the tracked id, returns the client's result
unchanged and leaves the local state untouched. -/
theorem resourceApplicationDelete_single_call (api : API) (d : ResourceData) :
    (resourceApplicationDelete api d).calls =
      [ClientCall.applicationsDeleteByIds [d.id]]
    ∧ (resourceApplicationDelete api d).state = d
    ∧ ((resourceApplicationDelete api d).error = none ↔
        api.applicationsDeleteByIds [d.id] = Except.ok ())
    ∧ ∀ e, (resourceApplicationDelete api d).error = some e ↔
        api.applicationsDeleteByIds [d.id] = Except.error e := by
  cases hd : api.applicationsDeleteByIds [d.id] with
  | error e2 => simp [resourceApplicationDelete, hd]
  | ok u => cases u; simp [resourceApplicationDelete, hd]

/-- Counterexample to C10 as stated: with a client that finds zero
matches, the read writes the id (the final state differs from the input
state) although the exactly-one-match success path was not taken, so
state writes are not confined to that path. -/
theorem applicationRead_writes_on_zero_match :
    apiEmpty.applicationsGet (Params.applicationids "123") = Except.ok []
    ∧ (applicationRead apiEmpty dX (Params.applicationids "123")).error = none
    ∧ (applicationRead apiEmpty dX (Params.applicationids "123")).state ≠ dX := by
  refine ⟨rfl, rfl, ?_⟩
  decide

/-- C10 (amended): the read is atomic on failure — on every error
outcome it writes nothing — and its writes are confined to the success
paths: zero matches write only the id (clearing it), exactly one match
writes id, name and hostid from the reply. -/
theorem applicationRead_atomic_on_failure (api : API) (d : ResourceData)
    (params : Params) :
    ((applicationRead api d params).error ≠ none →
      (applicationRead api d params).state = d)
    ∧ (api.applicationsGet params = Except.ok [] →
        (applicationRead api d params).state = { d with id := "" })
    ∧ ∀ apps, api.applicationsGet params = Except.ok apps →
        apps.length = 1 →
        (applicationRead api d params).state =
          { id := (apps.headD {}).applicationID,
            name := (apps.headD {}).name,
            hostid := (apps.headD {}).hostID } := by
  refine ⟨applicationRead_state_aux api d params, ?_, ?_⟩
  · intro h
    simp [applicationRead, h]
  · intro apps hg hl
    have h1 : ¬ apps.length < 1 := by omega
    have h2 : ¬ apps.length > 1 := by omega
    simp [applicationRead, hg, h1, h2]

/-- Witness for the amended C10: a concrete failing client leaves the
state untouched. -/
theorem applicationRead_atomic_on_failure_witness :
    (applicationRead apiErr dX (Params.applicationids "123")).state = dX :=
  (applicationRead_atomic_on_failure apiErr dX (Params.applicationids "123")).1
    (by decide)
